import Mathlib

/-!
Shallow embedding of the Zapper zipapp builder
(src/zapper/zapper.py and src/zapper/utils.py of vericast/Zapper).

Python strings and filesystem paths are modelled as lists of characters
(`Str`), so that the Python string operations the code relies on
(substring membership, split, slicing) become executable list functions.
The POSIX path helpers the code calls (os.path.basename, dirname, join,
normpath, abspath, relpath) are translated from the CPython posixpath
module; abspath needs the working directory of the process, which is
passed around as an explicit `cwd` argument.
-/

set_option autoImplicit false

abbrev Str := List Char

/-- Boolean test that the first list is a prefix of the second,
used to build the Python substring test below. -/
def prefixOfL : Str → Str → Bool
  | [], _ => true
  | _ :: _, [] => false
  | a :: as, b :: bs => a == b && prefixOfL as bs

/-- Python membership test on strings: `subOf n h` is the Python
expression testing that n occurs in h as a contiguous substring
(the empty string occurs in every string). -/
def subOf (n : Str) (h : Str) : Bool :=
  match h with
  | [] => prefixOfL n []
  | _ :: t => prefixOfL n h || subOf n t

/-- Python str.split(sep) for a one-character separator:
splits on every occurrence and keeps empty fields. -/
def splitOnChar (sep : Char) : Str → List Str
  | [] => [[]]
  | c :: rest =>
    let r := splitOnChar sep rest
    if c == sep then [] :: r
    else
      match r with
      | [] => [[c]]
      | h :: t => (c :: h) :: t

/-- ASCII whitespace recognised by Python str.split() with no
argument: space, tab, newline, carriage return, vertical tab,
form feed. -/
def isSpaceCh (c : Char) : Bool :=
  c == ' ' || c == '\t' || c == '\n' || c == '\r' || c == Char.ofNat 11 || c == Char.ofNat 12

/-- Worker for `pySplitWs`; `cur` accumulates the current word in
reverse order. -/
def wordsAux (cur : Str) : Str → List Str
  | [] => if cur.isEmpty then [] else [cur.reverse]
  | c :: rest =>
    if isSpaceCh c then
      if cur.isEmpty then wordsAux [] rest else cur.reverse :: wordsAux [] rest
    else wordsAux (c :: cur) rest

/-- Python str.split() with no separator: split on runs of whitespace,
discarding empty fields and leading and trailing whitespace. -/
def pySplitWs (s : Str) : List Str := wordsAux [] s

/-- posixpath.basename: everything after the last slash. -/
def basename (p : Str) : Str := (p.reverse.takeWhile (fun c => c != '/')).reverse

/-- str.rstrip applied to slashes, as used inside posixpath.dirname. -/
def rstripSlash (p : Str) : Str := (p.reverse.dropWhile (fun c => c == '/')).reverse

/-- posixpath.dirname: the part of the path up to and including the last
slash, with trailing slashes then stripped unless that head is empty or
consists only of slashes. -/
def dirname (p : Str) : Str :=
  let head := (p.reverse.dropWhile (fun c => c != '/')).reverse
  if head != [] && head.any (fun c => c != '/') then rstripSlash head else head

/-- posixpath.isabs: the path starts with a slash. -/
def isabs (p : Str) : Bool := prefixOfL ['/'] p

/-- posixpath.join for two arguments. -/
def pjoin (a b : Str) : Str :=
  if isabs b then b
  else if a == [] || a.getLast? == some '/' then a ++ b
  else a ++ '/' :: b

/-- posixpath.join applied to a non-empty list of arguments, as in
join applied to the unpacked rel_list inside relpath. -/
def pjoinMany : List Str → Str
  | [] => []
  | a :: rest => rest.foldl pjoin a

/-- The component loop of posixpath.normpath: drops empty and dot
components and resolves dot-dot components against the accumulated
list. -/
def normLoop (initial_slashes : Nat) : List Str → List Str → List Str
  | new_comps, [] => new_comps
  | new_comps, comp :: rest =>
    if comp == [] || comp == ['.'] then normLoop initial_slashes new_comps rest
    else if comp != ['.', '.'] || (initial_slashes == 0 && new_comps.isEmpty)
        || new_comps.getLast? == some ['.', '.'] then
      normLoop initial_slashes (new_comps ++ [comp]) rest
    else if ! new_comps.isEmpty then normLoop initial_slashes new_comps.dropLast rest
    else normLoop initial_slashes new_comps rest

/-- posixpath.normpath. -/
def normpath (path : Str) : Str :=
  if path == [] then ['.']
  else
    let initial_slashes : Nat :=
      if prefixOfL ['/'] path then
        if prefixOfL ['/', '/'] path && ! prefixOfL ['/', '/', '/'] path then 2 else 1
      else 0
    let comps := splitOnChar '/' path
    let new_comps := normLoop initial_slashes [] comps
    let p := List.replicate initial_slashes '/' ++ List.intercalate ['/'] new_comps
    if p == [] then ['.'] else p

/-- posixpath.abspath, with the working directory of the process passed
explicitly as `cwd`. -/
def abspath (cwd p : Str) : Str :=
  if isabs p then normpath p else normpath (pjoin cwd p)

/-- Length of the longest common prefix of two component lists:
os.path.commonprefix specialised to the two lists relpath hands it. -/
def commonPrefixLen : List Str → List Str → Nat
  | a :: as, b :: bs => if a == b then commonPrefixLen as bs + 1 else 0
  | _, _ => 0

/-- posixpath.relpath(path, start), with the working directory passed
explicitly. Python raises ValueError on an empty path; the embedding
returns the empty string there and the theorems about the ignore filter
only quantify over non-empty candidate paths. -/
def relpath (cwd path start : Str) : Str :=
  if path == [] then []
  else
    let start_list := (splitOnChar '/' (abspath cwd start)).filter (fun x => ! x.isEmpty)
    let path_list := (splitOnChar '/' (abspath cwd path)).filter (fun x => ! x.isEmpty)
    let i := commonPrefixLen start_list path_list
    let rel_list := List.replicate (start_list.length - i) ['.', '.'] ++ path_list.drop i
    if rel_list.isEmpty then ['.'] else pjoinMany rel_list

/-!
Embedding of the Zapper class (src/zapper/zapper.py).

Mutable state visible to the claims is split in two:

* `ZapperConfig` holds the per-instance attributes assigned by
  Zapper.__init__ (they are never reassigned afterwards except for
  self.entry_point, whose re-binding inside _create_main does not
  escape that method in any way the claims observe);

* `PState` holds the process-wide mutable state: the filesystem,
  whether pip is on the PATH, and Zapper.files_created.  In the source,
  files_created is declared as a CLASS attribute (zapper.py line 55)
  and __init__ never assigns an instance attribute of that name, so
  self.files_created.append inside _create_main and
  _install_requirements mutates the single class-level list that every
  Zapper instance shares; constructing a new instance does not touch
  it, and _clean iterates over it without ever emptying it.

The filesystem is modelled as the list of existing paths.  Writing a
file inserts its path; shutil.rmtree removes a path and everything
below it; os.remove removes a single path (a path with no descendants),
so both teardown branches of _clean are covered by `removeTree`.
Contents of files, the pip sub-processes (which only populate the
vendor directory), the shebang rewrite of the finished archive and the
chmod call touch no state the claims talk about and are modelled as
identities on `PState`.
-/

/-- Python truthiness of an optional string argument: None and the
empty string are falsy. -/
def truthyStr : Option Str → Bool
  | none => false
  | some s => ! s.isEmpty

/-- Python truthiness of an optional list argument: None and the empty
list are falsy. -/
def truthyList : Option (List Str) → Bool
  | none => false
  | some l => ! l.isEmpty

/-- Python expression src_directory.endswith(the one-character slash
string). -/
def endsWithSlash (p : Str) : Bool := p.getLast? == some '/'

/-- Zapper.default_python_shebang. -/
def default_python_shebang : Str := "#!/usr/bin/env python".data

/-- The per-instance attributes assigned by Zapper.__init__. -/
structure ZapperConfig where
  python_shebang : Str
  src_directory : Str
  dest : Str
  entry_point : Str
  requirements : Option (List Str)
  debug : Bool
  requirements_txt : Str
  ignore : List Str
  app_name : Str
  dest_path : Str
  clean_pyc : Bool
  vendor_path : Str
deriving DecidableEq, Repr

/-- Zapper.__init__ (zapper.py lines 57 to 145).  Parameters appear in
the Python order; the single failure is the ValueError raised when the
derived app name is empty. -/
def zapperInit (src_directory entry_point : Str)
    (python_shebang dest app_name : Option Str)
    (requirements : Option (List Str)) (requirements_txt : Option Str)
    (ignore : Option (List Str)) (clean_pyc debug : Bool) :
    Except Str ZapperConfig :=
  let python_shebang' :=
    if truthyStr python_shebang then python_shebang.getD [] else default_python_shebang
  let requirements_txt' :=
    if truthyStr requirements_txt then
      let rt := requirements_txt.getD []
      if ! isabs rt then pjoin src_directory rt else rt
    else pjoin src_directory "requirements.txt".data
  let ignore' := if ! truthyList ignore then ["venv".data, "env".data] else ignore.getD []
  let dest' := if ! truthyStr dest then dirname src_directory else dest.getD []
  let app_name' : Except Str Str :=
    if ! truthyStr app_name then
      let tmp_src_directory :=
        if endsWithSlash src_directory then src_directory.dropLast else src_directory
      let nm := basename tmp_src_directory ++ ".pyz".data
      if nm.isEmpty then Except.error "Unable to figure out app name!".data
      else Except.ok nm
    else Except.ok (app_name.getD [])
  match app_name' with
  | Except.error e => Except.error e
  | Except.ok nm =>
    Except.ok {
      python_shebang := python_shebang'
      src_directory := src_directory
      dest := dest'
      entry_point := entry_point
      requirements := requirements
      debug := debug
      requirements_txt := requirements_txt'
      ignore := ignore'
      app_name := nm
      dest_path := pjoin dest' nm
      clean_pyc := clean_pyc
      vendor_path := pjoin src_directory "vendor".data }

/-- First half of Zapper._create_main (zapper.py lines 196 to 201):
self.entry_point, parameters = self.entry_point.split() inside a
try block whose except ValueError does nothing, so the assignment
happens exactly when the whitespace split yields two fields. -/
def parseHeadAndParams (entry_point : Str) : Str × Option Str :=
  match pySplitWs entry_point with
  | [a, b] => (a, some b)
  | _ => (entry_point, none)

/-- Second half of Zapper._create_main (zapper.py lines 206 to 228):
module_path, entry_point = self.entry_point.split(single colon); a
ValueError from that unpacking is re-raised as the malformed entry
point error carrying the offending spec.  The result triple is
(module_path, entry point callable, parameters). -/
def createMainParse (entry_point : Str) : Except Str (Str × Str × Option Str) :=
  let hp := parseHeadAndParams entry_point
  match splitOnChar ':' hp.1 with
  | [module_path, ep] => Except.ok (module_path, ep, hp.2)
  | _ => Except.error hp.1

/-- Zapper._ignored (zapper.py lines 305 to 337).  Note the operand
order of every Python membership test: the candidate path, its relative
path and its basename are each tested as a SUBSTRING OF the ignore
pattern, and the final check compares each slash-separated segment of
the relative path for equality with the pattern.  The try block around
rel_path.split merely guards a call that cannot raise for strings. -/
def ignored (cwd : Str) (ignoreList : List Str) (src_directory fpath : Str) : Bool :=
  ignoreList.any (fun ignore_file =>
    subOf fpath ignore_file ||
    (let rel_path := relpath cwd fpath src_directory
     subOf rel_path ignore_file ||
     subOf (basename fpath) ignore_file ||
     (splitOnChar '/' rel_path).any (fun part => part == ignore_file)))

/-- Claim C1 as the specification words it: some pattern is a substring
of the absolute candidate path, or a substring of the relative path, or
equals the basename, or equals a single segment of the relative path. -/
def specIsIgnoredC1 (cwd : Str) (ignoreList : List Str) (src_directory fpath : Str) : Bool :=
  ignoreList.any (fun q =>
    subOf q fpath ||
    subOf q (relpath cwd fpath src_directory) ||
    q == basename fpath ||
    (splitOnChar '/' (relpath cwd fpath src_directory)).any (fun part => part == q))

/-- A directory tree: named sub-directories in order, then file names
in order, mirroring the folders and files lists of one os.walk
triple. -/
inductive Dir where
  | mk : List (Str × Dir) → List Str → Dir

mutual
/-- zapper.utils.list_files (utils.py lines 66 to 85) on a tree rooted
at `root`: os.walk yields the triple of `root` first and then walks
each sub-directory in order, and list_files yields join(root, name)
for every name in folders + files of each triple. -/
def listFiles (root : Str) : Dir → List Str
  | Dir.mk folders files =>
    (folders.map (fun nd => pjoin root nd.1) ++ files.map (fun n => pjoin root n))
      ++ listFilesList root folders

/-- Worker walking a list of named sub-directories in order. -/
def listFilesList (root : Str) : List (Str × Dir) → List Str
  | [] => []
  | (name, d) :: rest => listFiles (pjoin root name) d ++ listFilesList root rest
end

/-- The member-writing loop of Zapper._zip_directory (zapper.py lines
354 to 365): every listed entry that _ignored rejects is skipped, every
other entry f is written with member name relpath(f, src_directory).
Each archive member is recorded as the pair (source path, member
name). -/
def zipDirectory (cwd : Str) (ignoreList : List Str) (src_directory : Str) (tree : Dir) :
    List (Str × Str) :=
  (listFiles src_directory tree).filterMap (fun f =>
    if ignored cwd ignoreList src_directory f then none
    else some (f, relpath cwd f src_directory))

/-- Process-wide mutable state: the set of existing filesystem paths,
whether pip resolves on the PATH, and the class attribute
Zapper.files_created. -/
structure PState where
  fs : List Str
  pipAvailable : Bool
  files_created : List Str
deriving DecidableEq, Repr

/-- zapper.utils.file_exists, on the path-set filesystem (readability
is not modelled; every existing path is readable). -/
def fileExists (fpath : Str) (fs : List Str) : Bool := fs.contains fpath

/-- Creating a path: open(p, w) or os.makedirs(p). -/
def insertPath (p : Str) (fs : List Str) : List Str :=
  if fs.contains p then fs else p :: fs

/-- shutil.rmtree(p) and os.remove(p): the path and everything below it
stop existing. -/
def removeTree (p : Str) (fs : List Str) : List Str :=
  fs.filter (fun q => ! (q == p || prefixOfL (p ++ ['/']) q))

/-- The path of the synthesized launcher,
os.path.join(self.src_directory, the __main__.py name). -/
def mainPath (cfg : ZapperConfig) : Str := pjoin cfg.src_directory "__main__.py".data

/-- The error message of the OSError raised when pip is missing. -/
def pipMissingMsg : Str := "Required program pip not installed!".data

/-- Python str.endswith for a fixed suffix. -/
def endsWithL (suffix p : Str) : Bool := prefixOfL suffix.reverse p.reverse

/-- Zapper._clean_pyc (zapper.py lines 386 to 398): walk the source
directory and os.remove every file whose name ends in .pyc.  The
os.walk enumeration is modelled as the existing paths strictly below
src_directory. -/
def cleanPycStep (cfg : ZapperConfig) (s : PState) : PState :=
  { s with fs := s.fs.filter (fun f =>
      ! (prefixOfL (cfg.src_directory ++ ['/']) f && endsWithL ".pyc".data f)) }

/-- The effectful remainder of Zapper._create_main: on a parse failure
the ValueError propagates before anything is written; otherwise the
rendered launcher is written to mainPath and that path is appended to
the shared files_created list. -/
def createMainStep (cfg : ZapperConfig) (s : PState) : PState × Option Str :=
  match createMainParse cfg.entry_point with
  | Except.error e => (s, some e)
  | Except.ok _ =>
    ({ s with fs := insertPath (mainPath cfg) s.fs,
              files_created := s.files_created ++ [mainPath cfg] }, none)

/-- Zapper._install_requirements (zapper.py lines 233 to 303): fail
with OSError when pip is not on the PATH; create the vendor directory,
and record it in files_created, only when it does not already exist;
then run the pip sub-processes, which only populate the contents of the
vendor directory and so leave the modelled state unchanged. -/
def installRequirementsStep (cfg : ZapperConfig) (s : PState) : PState × Option Str :=
  if ! s.pipAvailable then (s, some pipMissingMsg)
  else
    let s1 :=
      if ! fileExists cfg.vendor_path s.fs then
        { s with fs := insertPath cfg.vendor_path s.fs,
                 files_created := s.files_created ++ [cfg.vendor_path] }
      else s
    (s1, none)

/-- The filesystem effect of Zapper._zip_directory: zipfile.ZipFile
 (self.dest_path, w) creates the archive at dest_path; nothing is
appended to files_created anywhere in the method. -/
def zipStep (cfg : ZapperConfig) (s : PState) : PState :=
  { s with fs := insertPath cfg.dest_path s.fs }

/-- Zapper._prepend_shebang rewrites the archive at dest_path in place:
no path appears or disappears and files_created is untouched. -/
def prependShebangStep (_cfg : ZapperConfig) (s : PState) : PState := s

/-- The os.chmod call at the end of build: permission bits are not
modelled. -/
def chmodStep (_cfg : ZapperConfig) (s : PState) : PState := s

/-- Zapper.build (zapper.py lines 400 to 423): the five steps run in
order with no try or finally around them, so the first failure
propagates immediately with the state it left behind; _clean is NOT
called on the way out. -/
def build (cfg : ZapperConfig) (s : PState) : PState × Option Str :=
  match createMainStep cfg (if cfg.clean_pyc then cleanPycStep cfg s else s) with
  | (s1, some e) => (s1, some e)
  | (s1, none) =>
    match installRequirementsStep cfg s1 with
    | (s2, some e) => (s2, some e)
    | (s2, none) => (chmodStep cfg (prependShebangStep cfg (zipStep cfg s2)), none)

/-- Zapper._clean (zapper.py lines 367 to 384), run by the destructor:
for every recorded path that still exists, remove it (rmtree for
directories, os.remove for files); paths that no longer exist are
skipped; the files_created list itself is never emptied. -/
def cleanStep (s : PState) : PState :=
  { s with fs := (s.files_created.foldl
      (fun fs fpath => if fileExists fpath fs then removeTree fpath fs else fs) s.fs) }

/-!
Concrete fixtures used by the closed theorems: a resolved configuration
for a build of the directory /src with entry point a:b (exactly the
record zapperInit produces for those arguments), and a few process
states.
-/

/-- The configuration Zapper.__init__ resolves for
Zapper(src_directory=/src, entry_point=a:b, clean_pyc=False). -/
def exampleConfig : ZapperConfig where
  python_shebang := default_python_shebang
  src_directory := "/src".data
  dest := "/".data
  entry_point := "a:b".data
  requirements := none
  debug := false
  requirements_txt := "/src/requirements.txt".data
  ignore := ["venv".data, "env".data]
  app_name := "src.pyz".data
  dest_path := "/src.pyz".data
  clean_pyc := false
  vendor_path := "/src/vendor".data

/-- Fresh process: only the source directory exists, pip is installed,
and no Zapper build has run yet, so the class attribute files_created
is still the empty list it was initialised with. -/
def examplePState0 : PState where
  fs := ["/src".data]
  pipAvailable := true
  files_created := []

/-- Same process but with pip missing from the PATH. -/
def examplePStateNoPip : PState where
  fs := ["/src".data]
  pipAvailable := false
  files_created := []

/-- A process in which an earlier Zapper instance created /src/vendor
and was never finalised: the path is still on disk and still recorded
in the shared class-level files_created list. -/
def examplePStateVendor : PState where
  fs := ["/src".data, "/src/vendor".data]
  pipAvailable := true
  files_created := ["/src/vendor".data]

/-- A process in which /src/vendor pre-exists (made by the user, not by
any Zapper run) and the shared files_created list is empty. -/
def examplePStateVendorClean : PState where
  fs := ["/src".data, "/src/vendor".data]
  pipAvailable := true
  files_created := []

/-- A small source tree: a sub-directory env containing x.py, and a
top-level file main.py. -/
def exampleTree : Dir := Dir.mk [("env".data, Dir.mk [] ["x.py".data])] ["main.py".data]

/-!
Helper lemmas about the filesystem model.
-/

theorem fileExists_iff {q : Str} {fs : List Str} : fileExists q fs = true ↔ q ∈ fs := by
  simp [fileExists, List.contains, List.elem_iff]

theorem mem_insertPath (p : Str) (fs : List Str) : p ∈ insertPath p fs := by
  unfold insertPath
  by_cases h : fs.contains p = true
  · rw [if_pos h]
    exact fileExists_iff.mp h
  · rw [if_neg h]
    exact List.mem_cons_self p fs

theorem mem_removeTree {q p : Str} {fs : List Str} (hq : q ∈ fs) (hne : q ≠ p)
    (hpre : prefixOfL (p ++ ['/']) q = false) : q ∈ removeTree p fs := by
  unfold removeTree
  refine List.mem_filter.mpr ⟨hq, ?_⟩
  simp [hpre, hne]

theorem foldRemove_subset (l : List Str) :
    ∀ (fs : List Str) (q : Str),
      q ∈ l.foldl (fun fs r => if fileExists r fs then removeTree r fs else fs) fs → q ∈ fs := by
  induction l with
  | nil => intro fs q h; exact h
  | cons r rest ih =>
    intro fs q h
    have h1 : q ∈ if fileExists r fs then removeTree r fs else fs := ih _ q h
    by_cases hr : fileExists r fs = true
    · rw [if_pos hr] at h1
      exact (List.mem_filter.mp h1).1
    · rwa [if_neg hr] at h1

theorem foldRemove_not_mem (l : List Str) :
    ∀ (fs : List Str) (p : Str), p ∈ l →
      p ∉ l.foldl (fun fs r => if fileExists r fs then removeTree r fs else fs) fs := by
  induction l with
  | nil => intro fs p h; cases h
  | cons r rest ih =>
    intro fs p hp hmem
    rcases List.mem_cons.mp hp with heq | htail
    · subst heq
      have hnot : p ∉ if fileExists p fs then removeTree p fs else fs := by
        by_cases hex : fileExists p fs = true
        · rw [if_pos hex]
          intro hin
          have := (List.mem_filter.mp hin).2
          simp at this
        · rw [if_neg hex]
          intro hin
          exact hex (fileExists_iff.mpr hin)
      exact hnot (foldRemove_subset rest _ p hmem)
    · exact ih _ p htail hmem

theorem foldRemove_preserves (l : List Str) :
    ∀ (fs : List Str) (p : Str),
      (∀ q ∈ l, q ≠ p ∧ prefixOfL (q ++ ['/']) p = false) → p ∈ fs →
      p ∈ l.foldl (fun fs r => if fileExists r fs then removeTree r fs else fs) fs := by
  induction l with
  | nil => intro fs p _ h; exact h
  | cons r rest ih =>
    intro fs p hq hp
    have hr := hq r (List.mem_cons_self r rest)
    have hstep : p ∈ if fileExists r fs then removeTree r fs else fs := by
      by_cases hex : fileExists r fs = true
      · rw [if_pos hex]
        exact mem_removeTree hp (fun h => hr.1 h.symm) hr.2
      · rwa [if_neg hex]
    exact ih _ p (fun q hmem => hq q (List.mem_cons_of_mem r hmem)) hstep

/-!
Claim theorems.
-/

/-- C10: in the constructor, when no explicit app_name is given, the
derived archive name (basename of the source directory with the .pyz
suffix appended) is a non-empty string for every input source-directory
string, so the "Unable to figure out app name!" ValueError branch of
Zapper.__init__ is unreachable. -/
theorem c10_derived_app_name_nonempty (src_directory entry_point : Str)
    (python_shebang dest : Option Str) (requirements : Option (List Str))
    (requirements_txt : Option Str) (ignore : Option (List Str)) (clean_pyc debug : Bool) :
    ∃ cfg, zapperInit src_directory entry_point python_shebang dest none requirements
        requirements_txt ignore clean_pyc debug = Except.ok cfg ∧ cfg.app_name ≠ [] := by
  have h4 : (".pyz".data : Str) ≠ [] := by decide
  have hie : ∀ t : Str, (basename t ++ ".pyz".data).isEmpty = false := by
    intro t
    rcases ht : basename t ++ ".pyz".data with _ | ⟨c, cs⟩
    · exact absurd (List.append_eq_nil.mp ht).2 h4
    · rfl
  have hne : ∀ t : Str, basename t ++ ".pyz".data ≠ [] :=
    fun t h => h4 (List.append_eq_nil.mp h).2
  unfold zapperInit
  simp only [truthyStr, Bool.not_false, if_true, hie, Bool.false_eq_true, if_false]
  exact ⟨_, rfl, hne _⟩

/-- C1 (counterexample): the claim says a pattern that is a substring
of the absolute candidate path ignores the path; with pattern ab,
source directory /src and candidate /src/abc the claimed condition
holds yet Zapper._ignored returns False, because every membership test
in the code runs in the opposite direction (path in pattern). -/
theorem c1_substring_direction_cex :
    ignored "/".data ["ab".data] "/src".data "/src/abc".data = false ∧
    specIsIgnoredC1 "/".data ["ab".data] "/src".data "/src/abc".data = true := by
  exact ⟨by decide, by decide⟩

/-- C1 (amended): Zapper._ignored returns True exactly when some
pattern q in the ignore list satisfies one of: the absolute candidate
path is a substring of q; the path relative to the source directory is
a substring of q; the basename of the candidate is a substring of q; or
q equals some single slash-separated segment of the relative path. -/
theorem c1_ignored_characterisation (cwd : Str) (P : List Str) (s p : Str) (hp : p ≠ []) :
    ignored cwd P s p = true ↔
      ∃ q ∈ P, subOf p q = true ∨ subOf (relpath cwd p s) q = true ∨
        subOf (basename p) q = true ∨
        ∃ part ∈ splitOnChar '/' (relpath cwd p s), part = q := by
  simp [ignored, List.any_eq_true, Bool.or_eq_true, beq_iff_eq]
  constructor
  · rintro ⟨q, hq, hm⟩
    exact ⟨q, hq, by tauto⟩
  · rintro ⟨q, hq, hm⟩
    exact ⟨q, hq, by tauto⟩

/-- Witness for the C1 characterisation at pattern x, source /src and
candidate /src/x, whose relative path x is a substring of the
pattern. -/
theorem c1_ignored_characterisation_witness :
    ("/src/x".data ≠ ([] : Str)) ∧
    (ignored "/".data ["x".data] "/src".data "/src/x".data = true ↔
      ∃ q ∈ ["x".data], subOf "/src/x".data q = true ∨
        subOf (relpath "/".data "/src/x".data "/src".data) q = true ∨
        subOf (basename "/src/x".data) q = true ∨
        ∃ part ∈ splitOnChar '/' (relpath "/".data "/src/x".data "/src".data), part = q) :=
  ⟨by decide, c1_ignored_characterisation "/".data ["x".data] "/src".data "/src/x".data
    (by decide)⟩

/-- C9: the ignore filter is monotonic in the pattern list: enlarging
the pattern list never un-ignores an ignored path. -/
theorem c9_ignored_monotonic (cwd s p : Str) (P Q : List Str) (hp : p ≠ [])
    (hsub : ∀ q ∈ P, q ∈ Q) (h : ignored cwd P s p = true) :
    ignored cwd Q s p = true := by
  simp only [ignored, List.any_eq_true] at h ⊢
  obtain ⟨q, hq, hm⟩ := h
  exact ⟨q, hsub q hq, hm⟩

/-- Witness for monotonicity: the pattern list [x] ignores /src/x and
so does its superset [x, y]. -/
theorem c9_ignored_monotonic_witness :
    ("/src/x".data ≠ ([] : Str) ∧ (∀ q ∈ ["x".data], q ∈ ["x".data, "y".data]) ∧
      ignored "/".data ["x".data] "/src".data "/src/x".data = true) ∧
    ignored "/".data ["x".data, "y".data] "/src".data "/src/x".data = true :=
  ⟨⟨by decide, by decide, by decide⟩,
    c9_ignored_monotonic "/".data "/src".data "/src/x".data ["x".data] ["x".data, "y".data]
      (by decide) (by decide) (by decide)⟩

/-- C2: evaluation of the entry-point parser at the failing input.  The
tuple unpacking of self.entry_point.split() only succeeds when the
whitespace split yields exactly two fields, so pkg.mod:run --x 1
(three fields) is left whole and the colon split then produces callable
name "run --x 1" with no argument string, not callable run with
argument string "--x 1" as the claim states; a single-token argument
string is split off as the claim describes. -/
theorem c2_whitespace_split_eval :
    createMainParse "pkg.mod:run --x 1".data =
      Except.ok ("pkg.mod".data, "run --x 1".data, (none : Option Str)) ∧
    createMainParse "pkg.mod:run --x1".data =
      Except.ok ("pkg.mod".data, "run".data, some "--x1".data) := by
  exact ⟨rfl, rfl⟩

/-- C6 (counterexample): the claim says a spec with an empty callable
name such as pkg.mod: fails with MalformedEntryPoint; in the code the
colon split of pkg.mod: yields the two parts pkg.mod and the empty
string, the tuple unpacking succeeds, and no error is raised. -/
theorem c6_empty_callable_accepted_cex :
    createMainParse "pkg.mod:".data =
      Except.ok ("pkg.mod".data, ([] : Str), (none : Option Str)) ∧
    ∀ e, createMainParse "pkg.mod:".data ≠ Except.error e := by
  refine ⟨rfl, ?_⟩
  intro e h
  rw [show createMainParse "pkg.mod:".data =
      Except.ok ("pkg.mod".data, ([] : Str), (none : Option Str)) from rfl] at h
  exact Except.noConfusion h

/-- C6 (amended): entry-point synthesis fails exactly when splitting
the head spec on the colon does not yield exactly two parts; the parts
may be empty, so pkg.mod (one part) and a:b:c (three parts) fail while
pkg.mod: succeeds with an empty callable name. -/
theorem c6_malformed_iff_colon_parts (ep : Str) :
    (∃ e, createMainParse ep = Except.error e) ↔
      (splitOnChar ':' (parseHeadAndParams ep).1).length ≠ 2 := by
  rcases h : splitOnChar ':' (parseHeadAndParams ep).1 with _ | ⟨a, _ | ⟨b, _ | ⟨c, t⟩⟩⟩ <;>
    simp [createMainParse, h]

/-- C3: evaluation at the failing scenario.  files_created is a class
attribute of Zapper (zapper.py line 55) and __init__ never assigns an
instance attribute of that name, so the list the model carries in
PState is the one list every instance shares.  After one builder runs
its _create_main step in a fresh process, the shared list holds the
synthesized launcher path; a second builder constructed at that moment
(construction does not touch the list) therefore starts with a
non-empty files_created, and running teardown leaves the list itself
unchanged rather than clearing it. -/
theorem c3_files_created_shared_eval :
    (createMainStep exampleConfig examplePState0).1.files_created =
      ["/src/__main__.py".data] ∧
    (createMainStep exampleConfig examplePState0).1.files_created ≠ [] ∧
    (cleanStep (createMainStep exampleConfig examplePState0).1).files_created =
      ["/src/__main__.py".data] := by
  refine ⟨rfl, by decide, rfl⟩

/-- C4 (counterexample): with a well-formed entry point, a missing pip
and the launcher already written, build propagates the OSError while
the synthesized launcher file is still on disk and still recorded in
files_created: no teardown ran between the failure and the
propagation (in the source, _clean is only invoked by __del__ when the
builder object is later finalised, not on the error path of build). -/
theorem c4_error_propagates_uncleaned_cex :
    (build exampleConfig examplePStateNoPip).2 = some pipMissingMsg ∧
    fileExists (mainPath exampleConfig) (build exampleConfig examplePStateNoPip).1.fs = true ∧
    mainPath exampleConfig ∈ (build exampleConfig examplePStateNoPip).1.files_created := by
  refine ⟨rfl, rfl, by decide⟩

/-- C4 (amended): when a step of build fails (witnessed here by the
dependency-installation failure when pip is missing), the error is
propagated WITHOUT running the teardown: the launcher file this run
synthesized is still in the filesystem and in files_created at the
moment of propagation; it is removed only when _clean later runs at the
finalisation of the builder. -/
theorem c4_failure_skips_teardown (cfg : ZapperConfig) (s : PState)
    (hpip : s.pipAvailable = false)
    (hok : ∃ v, createMainParse cfg.entry_point = Except.ok v) :
    (build cfg s).2 = some pipMissingMsg ∧
    (build cfg s).1.files_created = s.files_created ++ [mainPath cfg] ∧
    fileExists (mainPath cfg) (build cfg s).1.fs = true ∧
    fileExists (mainPath cfg) (cleanStep (build cfg s).1).fs = false := by
  obtain ⟨v, hv⟩ := hok
  have hfc0 : (if cfg.clean_pyc then cleanPycStep cfg s else s).files_created =
      s.files_created := by
    by_cases h : cfg.clean_pyc <;> simp [h, cleanPycStep]
  have hpip0 : (if cfg.clean_pyc then cleanPycStep cfg s else s).pipAvailable = false := by
    by_cases h : cfg.clean_pyc <;> simp [h, cleanPycStep, hpip]
  refine ⟨?_, ?_, ?_, ?_⟩
  · simp [build, createMainStep, hv, installRequirementsStep, hpip0]
  · simp [build, createMainStep, hv, installRequirementsStep, hpip0, hfc0]
  · simp only [build, createMainStep, hv, installRequirementsStep, hpip0]
    simp only [Bool.not_false, if_true]
    exact fileExists_iff.mpr (mem_insertPath _ _)
  · simp only [build, createMainStep, hv, installRequirementsStep, hpip0]
    simp only [Bool.not_false, if_true, cleanStep]
    rw [Bool.eq_false_iff]
    intro hx
    exact foldRemove_not_mem
      ((if cfg.clean_pyc = true then cleanPycStep cfg s else s).files_created ++ [mainPath cfg])
      (insertPath (mainPath cfg) (if cfg.clean_pyc = true then cleanPycStep cfg s else s).fs)
      (mainPath cfg) (List.mem_append_right _ (List.mem_singleton.mpr rfl))
      (fileExists_iff.mp hx)

/-- Witness for the amended C4 at the concrete no-pip scenario. -/
theorem c4_failure_skips_teardown_witness :
    (examplePStateNoPip.pipAvailable = false ∧
      createMainParse exampleConfig.entry_point =
        Except.ok ("a".data, "b".data, (none : Option Str))) ∧
    ((build exampleConfig examplePStateNoPip).2 = some pipMissingMsg ∧
      (build exampleConfig examplePStateNoPip).1.files_created =
        examplePStateNoPip.files_created ++ [mainPath exampleConfig] ∧
      fileExists (mainPath exampleConfig) (build exampleConfig examplePStateNoPip).1.fs = true ∧
      fileExists (mainPath exampleConfig)
        (cleanStep (build exampleConfig examplePStateNoPip).1).fs = false) :=
  ⟨⟨rfl, rfl⟩,
    c4_failure_skips_teardown exampleConfig examplePStateNoPip rfl
      ⟨("a".data, "b".data, none), rfl⟩⟩

/-- C5: the archive written by _zip_directory contains exactly the
walked entries the ignore filter does not reject, each under its path
relative to the source directory as member name; and the archive file,
created at dest_path, is never appended to files_created (so teardown,
which only touches recorded paths, leaves it alone). -/
theorem c5_zip_members (cwd src : Str) (ignoreList : List Str) (tree : Dir)
    (cfg : ZapperConfig) (s : PState) :
    (∀ f, f ∈ listFiles src tree → ignored cwd ignoreList src f = false →
      (f, relpath cwd f src) ∈ zipDirectory cwd ignoreList src tree) ∧
    (∀ f m, (f, m) ∈ zipDirectory cwd ignoreList src tree →
      f ∈ listFiles src tree ∧ ignored cwd ignoreList src f = false ∧
        m = relpath cwd f src) ∧
    (zipStep cfg s).files_created = s.files_created ∧
    fileExists cfg.dest_path (zipStep cfg s).fs = true := by
  refine ⟨?_, ?_, rfl, fileExists_iff.mpr (mem_insertPath _ _)⟩
  · intro f hf hig
    refine List.mem_filterMap.mpr ⟨f, hf, ?_⟩
    simp [hig]
  · intro f m hm
    obtain ⟨g, hg, he⟩ := List.mem_filterMap.mp hm
    rcases hig : ignored cwd ignoreList src g with _ | _
    · simp only [hig] at he
      simp only [Bool.false_eq_true, if_false, Option.some.injEq, Prod.mk.injEq] at he
      obtain ⟨rfl, rfl⟩ := he
      exact ⟨hg, hig, rfl⟩
    · simp [hig] at he

/-- Witness for C5: in the example tree under /src with the default
ignore list, the non-ignored entry /src/main.py appears in the archive
under the member name main.py. -/
theorem c5_zip_members_witness :
    ("/src/main.py".data ∈ listFiles "/src".data exampleTree ∧
      ignored "/".data ["venv".data, "env".data] "/src".data "/src/main.py".data = false) ∧
    ("/src/main.py".data, "main.py".data) ∈
      zipDirectory "/".data ["venv".data, "env".data] "/src".data exampleTree :=
  ⟨⟨by decide, by decide⟩,
    (c5_zip_members "/".data "/src".data ["venv".data, "env".data] exampleTree
        exampleConfig examplePState0).1 "/src/main.py".data (by decide) (by decide)⟩

/-- C8 (counterexample): a vendor directory that exists before the
build is deleted by teardown when the shared class-level files_created
list still holds its path from an earlier builder in the same process:
the install step correctly declines to create or record it, yet _clean
removes it, refuting the claim that teardown never deletes a vendor
directory that existed before the build. -/
theorem c8_stale_shared_list_deletes_vendor_cex :
    fileExists exampleConfig.vendor_path examplePStateVendor.fs = true ∧
    (installRequirementsStep exampleConfig examplePStateVendor).1.files_created =
      examplePStateVendor.files_created ∧
    fileExists exampleConfig.vendor_path
      (cleanStep (installRequirementsStep exampleConfig examplePStateVendor).1).fs = false := by
  refine ⟨by decide, rfl, by decide⟩

/-- C8 (amended): the install step creates the vendor directory only
when it is absent and records it in files_created exactly then, and it
never touches a pre-existing vendor directory; teardown preserves a
vendor directory that existed before the build PROVIDED no entry of the
shared files_created list is the vendor path or an ancestor of it
(which can happen only through the leftover recordings of an earlier
builder, since this builder records the vendor path only when it
created it). -/
theorem c8_vendor_handling (cfg : ZapperConfig) (s t : PState)
    (hpip : s.pipAvailable = true) :
    (fileExists cfg.vendor_path s.fs = true → installRequirementsStep cfg s = (s, none)) ∧
    (fileExists cfg.vendor_path s.fs = false →
      (installRequirementsStep cfg s).1.files_created = s.files_created ++ [cfg.vendor_path] ∧
      fileExists cfg.vendor_path (installRequirementsStep cfg s).1.fs = true) ∧
    (fileExists cfg.vendor_path t.fs = true →
      (∀ q ∈ t.files_created, q ≠ cfg.vendor_path ∧
        prefixOfL (q ++ ['/']) cfg.vendor_path = false) →
      fileExists cfg.vendor_path (cleanStep t).fs = true) := by
  refine ⟨?_, ?_, ?_⟩
  · intro hex
    simp [installRequirementsStep, hpip, hex]
  · intro hex
    refine ⟨by simp [installRequirementsStep, hpip, hex], ?_⟩
    simp only [installRequirementsStep, hpip, hex]
    simp only [Bool.not_true, Bool.false_eq_true, if_false, Bool.not_false, if_true]
    exact fileExists_iff.mpr (mem_insertPath _ _)
  · intro hex hq
    exact fileExists_iff.mpr
      (foldRemove_preserves t.files_created t.fs cfg.vendor_path hq (fileExists_iff.mp hex))

/-- Witness for the amended C8: with pip present, a pre-existing
/src/vendor and a clean shared list, the install step leaves the state
untouched and teardown preserves the vendor directory. -/
theorem c8_vendor_handling_witness :
    (examplePStateVendorClean.pipAvailable = true ∧
      fileExists exampleConfig.vendor_path examplePStateVendorClean.fs = true ∧
      (∀ q ∈ examplePStateVendorClean.files_created, q ≠ exampleConfig.vendor_path ∧
        prefixOfL (q ++ ['/']) exampleConfig.vendor_path = false)) ∧
    installRequirementsStep exampleConfig examplePStateVendorClean =
      (examplePStateVendorClean, none) ∧
    fileExists exampleConfig.vendor_path (cleanStep examplePStateVendorClean).fs = true :=
  ⟨⟨by decide, by decide, by decide⟩,
    (c8_vendor_handling exampleConfig examplePStateVendorClean examplePStateVendorClean
        (by decide)).1 (by decide),
    (c8_vendor_handling exampleConfig examplePStateVendorClean examplePStateVendorClean
        (by decide)).2.2 (by decide) (by decide)⟩

/-- Helper for C7: appending a slash to a path that is non-empty and
does not already end in a slash makes posixpath.dirname return the
original path (not its parent): dirname takes everything up to the last
slash and strips the trailing slashes it just kept. -/
theorem dirname_append_slash (src : Str) (h1 : src ≠ []) (h2 : src.getLast? ≠ some '/') :
    dirname (src ++ ['/']) = src := by
  rcases hr : src.reverse with _ | ⟨c, rest⟩
  · exact absurd (List.reverse_eq_nil_iff.mp hr) h1
  have hc : c ≠ '/' := by
    intro hceq
    apply h2
    rw [← List.head?_reverse src, hr, hceq]
    rfl
  have hsrc : src = rest.reverse ++ [c] := by
    rw [← List.reverse_reverse src, hr, List.reverse_cons]
  have hrev : (src ++ ['/']).reverse = '/' :: src.reverse := by
    rw [List.reverse_append]
    rfl
  have hmain : ((src ++ ['/']).reverse.dropWhile (fun c => c != '/')).reverse = src ++ ['/'] := by
    rw [hrev, List.dropWhile_cons]
    simp
  have hne : (src ++ ['/'] != ([] : Str)) = true := by
    simp
  have hany : (src ++ ['/']).any (fun c => c != '/') = true := by
    refine List.any_eq_true.mpr ⟨c, ?_, bne_iff_ne.mpr hc⟩
    exact List.mem_append_left _ (hsrc ▸ List.mem_append_right _ (List.mem_singleton.mpr rfl))
  have hstrip : rstripSlash (src ++ ['/']) = src := by
    unfold rstripSlash
    rw [hrev, List.dropWhile_cons]
    simp only [beq_self_eq_true, if_true]
    rw [hr, List.dropWhile_cons]
    simp only [beq_eq_false_iff_ne.mpr hc, Bool.false_eq_true, if_false]
    rw [← hr, List.reverse_reverse]
  simp only [dirname, hmain, hne, hany, Bool.and_self, if_true, hstrip]

/-- C7 (counterexample): with a trailing slash on the source directory
and no explicit destination, Zapper.__init__ sets dest to
os.path.dirname of the given path, which is the source directory itself
(slash stripped) and not its parent /home/u, refuting the claim that a
trailing slash does not change the defaulted destination. -/
theorem c7_trailing_slash_dest_cex :
    (zapperInit "/home/u/myapp/".data "a:b".data none none none none none none
        true false).map (fun c => c.dest) = Except.ok "/home/u/myapp".data ∧
    "/home/u/myapp".data ≠ "/home/u".data := by
  exact ⟨rfl, by decide⟩

/-- C7 (amended): with no explicit destination or archive name, the
destination defaults to os.path.dirname of the source path exactly as
written: for a source path with no trailing slash that is the parent
directory, while for the same path with a trailing slash it is the
source directory itself; the derived archive name (basename plus the
fixed .pyz extension) is the same with or without the trailing
slash. -/
theorem c7_default_dest_and_app_name (src ep : Str) (h1 : src ≠ [])
    (h2 : src.getLast? ≠ some '/') :
    (zapperInit src ep none none none none none none true false).map
        (fun c => (c.dest, c.app_name)) =
      Except.ok (dirname src, basename src ++ ".pyz".data) ∧
    (zapperInit (src ++ ['/']) ep none none none none none none true false).map
        (fun c => (c.dest, c.app_name)) =
      Except.ok (src, basename src ++ ".pyz".data) := by
  have h4 : (".pyz".data : Str) ≠ [] := by decide
  have hie : ∀ t : Str, (basename t ++ ".pyz".data).isEmpty = false := by
    intro t
    rcases ht : basename t ++ ".pyz".data with _ | ⟨c, cs⟩
    · exact absurd (List.append_eq_nil.mp ht).2 h4
    · rfl
  have hesf : endsWithSlash src = false := beq_eq_false_iff_ne.mpr h2
  have hest : endsWithSlash (src ++ ['/']) = true := by
    simp [endsWithSlash, List.getLast?_concat]
  constructor
  · simp only [zapperInit, truthyStr, Bool.not_false, if_true, hesf, Bool.false_eq_true,
      if_false, hie, Except.map]
  · simp only [zapperInit, truthyStr, Bool.not_false, if_true, hest, List.dropLast_concat,
      hie, Bool.false_eq_true, if_false, Except.map, dirname_append_slash src h1 h2]

/-- Witness for the amended C7 at the source directory /home/u/myapp. -/
theorem c7_default_dest_and_app_name_witness :
    ("/home/u/myapp".data ≠ ([] : Str) ∧ "/home/u/myapp".data.getLast? ≠ some '/') ∧
    ((zapperInit "/home/u/myapp".data "a:b".data none none none none none none true
        false).map (fun c => (c.dest, c.app_name)) =
      Except.ok (dirname "/home/u/myapp".data, basename "/home/u/myapp".data ++ ".pyz".data) ∧
      (zapperInit ("/home/u/myapp".data ++ ['/']) "a:b".data none none none none none none
        true false).map (fun c => (c.dest, c.app_name)) =
      Except.ok ("/home/u/myapp".data, basename "/home/u/myapp".data ++ ".pyz".data)) :=
  ⟨⟨by decide, by decide⟩,
    c7_default_dest_and_app_name "/home/u/myapp".data "a:b".data (by decide) (by decide)⟩
